import Mathlib

/-!
Verification of the nfcwallet card-list component (`src/ExpandableCard.tsx`,
`src/App.tsx`).

The card-list view owns a list of cards, an NFC-support flag and a
scan-confirmation-modal flag.  Its three operations are embedded here:

* `openScanModal` — guards on the capability flag; alerts when NFC is
  unsupported, otherwise opens the scan-confirmation surface.
* `scanNfc` — the asynchronous scan workflow: a try block that requests a
  technology session, reads a tag and, when a tag is present, appends a new
  card whose `nfcData` is the decoded first record (or the placeholder
  `"No readable data"`); a catch block that raises a user-facing alert; and a
  finally block that cancels the technology request and closes the modal.
* `deleteCard` — removes cards by identifier with `Array.prototype.filter`.

The external NFC service is modelled by `ScanEnv` (the possible outcomes of
`requestTechnology` / `getTag`) together with a `decode` function standing for
`Ndef.text.decodePayload` (`none` models the decoder throwing).  Observable
side effects (alerts shown, `cancelTechnologyRequest` calls) are collected as
a list of `UiEvent`s.
-/

/-- A card, after `interface ExpandableCardProps` (id, title, details,
optional nfcData). -/
structure Card where
  id : Nat
  title : String
  details : String
  nfcData : Option String
deriving Repr, DecidableEq

/-- One NDEF record of a tag: an opaque byte payload
(`ndefRecords[0].payload`, viewed through `new Uint8Array(...)`). -/
structure TagRecord where
  payload : List Nat
deriving Repr, DecidableEq

/-- A tag descriptor as returned by `NfcManager.getTag()`:
`ndefMessage` may be absent (`undefined`) or hold a list of records. -/
structure NfcTag where
  ndefMessage : Option (List TagRecord)
deriving Repr, DecidableEq

/-- Outcome of the external NFC session, covering every control path the
source distinguishes: `requestTechnology` throwing, `getTag` throwing,
`getTag` resolving to a null tag, or a tag being read. -/
inductive ScanEnv where
  | requestThrows
  | getTagThrows
  | tagNull
  | tagRead (tag : NfcTag)
deriving Repr, DecidableEq

/-- Observable side effects of the component: a user-facing
`Alert.alert(title, msg)` and a `NfcManager.cancelTechnologyRequest()` call. -/
inductive UiEvent where
  | alert (title : String) (msg : String)
  | cancelSession
deriving Repr, DecidableEq

/-- The card-list view's state: `cards`, `isNfcSupported`,
`scanModalVisible` (the three `useState` hooks of `App`). -/
structure AppState where
  cards : List Card
  isNfcSupported : Bool
  scanModalVisible : Bool
deriving Repr, DecidableEq

/-- The seeded card of the initial state
(`{ id: 1, title: 'Kart 1', details: 'Bu, birinci kartın detaylarıdır.' }`). -/
def seedCard : Card :=
  { id := 1, title := "Kart 1", details := "Bu, birinci kartın detaylarıdır.",
    nfcData := none }

/-- Initial card collection: exactly the seeded card. -/
def seededCards : List Card := [seedCard]

/-- `openScanModal`: alert and return when NFC is unsupported, otherwise set
the scan modal visible. -/
def openScanModal (s : AppState) : AppState × List UiEvent :=
  if s.isNfcSupported then
    ({ s with scanModalVisible := true }, [])
  else
    (s, [UiEvent.alert "NFC Error" "NFC is not supported on this device"])

/-- The card object built on a successful read
(`{ title: 'New NFC Card', details: 'Card scanned successfully',
nfcData: parsedData, id: prev.length + 1 }`). -/
def newNfcCard (prev : List Card) (parsedData : String) : Card :=
  { id := prev.length + 1, title := "New NFC Card",
    details := "Card scanned successfully", nfcData := some parsedData }

/-- The try block of `scanNfc`: request the session, read the tag, and if a
tag is present compute `parsedData` (decoding the first record when
`ndefRecords && ndefRecords.length > 0`, the placeholder otherwise) and
append the new card.  `Except.error ()` models an exception propagating to
the catch block; `decode` returning `none` models `Ndef.text.decodePayload`
throwing. -/
def scanTryBlock (decode : List Nat → Option String) (env : ScanEnv)
    (prev : List Card) : Except Unit (List Card) :=
  match env with
  | ScanEnv.requestThrows => Except.error ()
  | ScanEnv.getTagThrows => Except.error ()
  | ScanEnv.tagNull => Except.ok prev
  | ScanEnv.tagRead tag =>
    match tag.ndefMessage with
    | some (r :: _) =>
      match decode r.payload with
      | some text => Except.ok (prev ++ [newNfcCard prev text])
      | none => Except.error ()
    | some [] => Except.ok (prev ++ [newNfcCard prev "No readable data"])
    | none => Except.ok (prev ++ [newNfcCard prev "No readable data"])

/-- `scanNfc`: run the try block; on an exception show the
`'Failed to scan NFC tag'` alert and leave the cards unchanged; in the
finally block cancel the technology request and close the scan modal. -/
def scanNfc (decode : List Nat → Option String) (env : ScanEnv)
    (s : AppState) : AppState × List UiEvent :=
  match scanTryBlock decode env s.cards with
  | Except.ok newCards =>
    ({ s with cards := newCards, scanModalVisible := false },
      [UiEvent.cancelSession])
  | Except.error _ =>
    ({ s with scanModalVisible := false },
      [UiEvent.alert "NFC Error" "Failed to scan NFC tag",
        UiEvent.cancelSession])

/-- `deleteCard`: `cards.filter((card) => card.id !== id)`. -/
def deleteCard (cards : List Card) (id : Nat) : List Card :=
  cards.filter (fun card => card.id != id)

/-- Recognizer for the session-release event. -/
def isCancel : UiEvent → Bool
  | UiEvent.cancelSession => true
  | _ => false

/-- Recognizer for user-facing alert events. -/
def isAlert : UiEvent → Bool
  | UiEvent.alert _ _ => true
  | _ => false

/-- Number of `cancelTechnologyRequest` calls in an event trace. -/
def cancelCount (events : List UiEvent) : Nat := events.countP isCancel

/-- Number of user-facing alerts in an event trace. -/
def alertCount (events : List UiEvent) : Nat := events.countP isAlert

/-- State in which a scan runs: seeded cards, NFC supported, scan modal
open. -/
def scanState0 : AppState :=
  { cards := seededCards, isNfcSupported := true, scanModalVisible := true }

/-- C1: every invocation of `scanNfc` emits exactly one session-release
(cancel) event and leaves the scan-confirmation modal closed, whatever the
session outcome; and when the session request throws, the card collection is
unchanged (and the release still happens exactly once). -/
theorem scanNfc_releases_once_and_closes_modal
    (decode : List Nat → Option String) (env : ScanEnv) (s : AppState) :
    cancelCount (scanNfc decode env s).2 = 1 ∧
    (scanNfc decode env s).1.scanModalVisible = false ∧
    (scanNfc decode ScanEnv.requestThrows s).1.cards = s.cards ∧
    cancelCount (scanNfc decode ScanEnv.requestThrows s).2 = 1 := by
  refine ⟨?_, ?_, rfl, rfl⟩
  · cases h : scanTryBlock decode env s.cards <;>
      simp [scanNfc, h, cancelCount, List.countP_cons, isCancel]
  · cases h : scanTryBlock decode env s.cards <;> simp [scanNfc, h]

/-- C2 counterexample: when `getTag()` resolves to a null tag (absence of a
tag), `scanNfc` shows no user-facing error notice at all — the `if (tag)`
guard skips the append silently — refuting the claim that every failure,
including absence of a tag, surfaces an error notice. -/
theorem scanNfc_nullTag_no_alert :
    alertCount (scanNfc (fun _ => none) ScanEnv.tagNull scanState0).2 = 0 ∧
    (scanNfc (fun _ => none) ScanEnv.tagNull scanState0).1.cards =
      seededCards := by
  exact ⟨rfl, rfl⟩

/-- C2 (amended): every exception raised during the scan session — session
request failure, tag-read failure, or decode failure — surfaces exactly one
user-facing error notice and leaves the card collection unchanged; absence of
a tag (a null tag without an exception) also leaves the collection unchanged,
but surfaces no notice. -/
theorem scanNfc_exception_alerts_no_mutation
    (decode : List Nat → Option String) (env : ScanEnv) (s : AppState)
    (h : scanTryBlock decode env s.cards = Except.error ()) :
    (alertCount (scanNfc decode env s).2 = 1 ∧
      (scanNfc decode env s).1.cards = s.cards) ∧
    ((scanNfc decode ScanEnv.tagNull s).1.cards = s.cards ∧
      alertCount (scanNfc decode ScanEnv.tagNull s).2 = 0) := by
  refine ⟨⟨?_, ?_⟩, rfl, rfl⟩
  · simp [scanNfc, h, alertCount, List.countP_cons, isAlert]
  · simp [scanNfc, h]

/-- Witness for C2 (amended): a throwing session request on the seeded state
raises exactly one alert and leaves the seeded collection unchanged. -/
theorem scanNfc_exception_alerts_no_mutation_witness :
    (alertCount
        (scanNfc (fun _ => none) ScanEnv.requestThrows scanState0).2 = 1 ∧
      (scanNfc (fun _ => none) ScanEnv.requestThrows scanState0).1.cards =
        scanState0.cards) ∧
    ((scanNfc (fun _ => none) ScanEnv.tagNull scanState0).1.cards =
        scanState0.cards ∧
      alertCount (scanNfc (fun _ => none) ScanEnv.tagNull scanState0).2 = 0) :=
  scanNfc_exception_alerts_no_mutation (fun _ => none) ScanEnv.requestThrows
    scanState0 rfl

/-- C3 counterexample: scanning on the seeded one-card state (collection
length 1 at the time of the scan) appends a card whose identifier is 2, not
1 — the generated identifier is not the collection's length at scan time. -/
theorem scanNfc_id_not_scan_time_length :
    scanState0.cards.length = 1 ∧
    (scanNfc (fun _ => some "x")
        (ScanEnv.tagRead { ndefMessage := some [{ payload := [0] }] })
        scanState0).1.cards =
      seededCards ++
        [{ id := 2, title := "New NFC Card",
           details := "Card scanned successfully", nfcData := some "x" }] ∧
    (2 : Nat) ≠ 1 := by
  exact ⟨rfl, rfl, by decide⟩

/-- C3 (amended): whenever a scan appends a card, the appended card's
generated identifier equals the collection's length at the time of the scan
plus one (equivalently, the collection's length after the append). -/
theorem scanNfc_appended_id_eq_length_succ
    (decode : List Nat → Option String) (env : ScanEnv) (s : AppState)
    (c : Card)
    (h : (scanNfc decode env s).1.cards = s.cards ++ [c]) :
    c.id = s.cards.length + 1 := by
  rcases env with _ | _ | _ | tag
  · simp [scanNfc, scanTryBlock] at h
  · simp [scanNfc, scanTryBlock] at h
  · simp [scanNfc, scanTryBlock] at h
  · rcases tag with ⟨msg⟩
    rcases msg with _ | (_ | ⟨rec, rest⟩)
    · simp [scanNfc, scanTryBlock] at h
      rw [← h]
      rfl
    · simp [scanNfc, scanTryBlock] at h
      rw [← h]
      rfl
    · cases hd : decode rec.payload with
      | some text =>
        simp [scanNfc, scanTryBlock, hd] at h
        rw [← h]
        rfl
      | none =>
        simp [scanNfc, scanTryBlock, hd] at h

/-- Witness for C3 (amended): on the seeded one-card state the concrete
appended card has identifier 2 = 1 + 1. -/
theorem scanNfc_appended_id_eq_length_succ_witness :
    ({ id := 2, title := "New NFC Card",
       details := "Card scanned successfully",
       nfcData := some ("x" : String) } : Card).id =
      scanState0.cards.length + 1 :=
  scanNfc_appended_id_eq_length_succ (fun _ => some "x")
    (ScanEnv.tagRead { ndefMessage := some [{ payload := [0] }] })
    scanState0 _ rfl

/-- C4: a successful scan of a tag with at least one data record appends
exactly one card at the end of the collection; its `nfcData` field is the
decoded text of the first record's payload bytes, and all previously present
cards are unchanged and keep their relative order. -/
theorem scanNfc_success_appends_decoded_card
    (decode : List Nat → Option String) (s : AppState) (rec : TagRecord)
    (rest : List TagRecord) (text : String)
    (h : decode rec.payload = some text) :
    ∃ c : Card,
      (scanNfc decode (ScanEnv.tagRead { ndefMessage := some (rec :: rest) })
          s).1.cards = s.cards ++ [c] ∧
      c.nfcData = some text := by
  refine ⟨newNfcCard s.cards text, ?_, rfl⟩
  simp [scanNfc, scanTryBlock, h]

/-- Witness for C4: scanning a one-record tag whose payload decodes to
`"hi"` on the seeded state appends one card carrying `"hi"`. -/
theorem scanNfc_success_appends_decoded_card_witness :
    ∃ c : Card,
      (scanNfc (fun _ => some "hi")
          (ScanEnv.tagRead { ndefMessage := some [{ payload := [0] }] })
          scanState0).1.cards = scanState0.cards ++ [c] ∧
      c.nfcData = some "hi" :=
  scanNfc_success_appends_decoded_card (fun _ => some "hi") scanState0
    { payload := [0] } [] "hi" rfl

/-- C5: `deleteCard` only ever drops cards, preserving the relative order of
the remainder; it is a no-op when no card has the requested identifier; and
when the collection holds exactly one card with identifier `k`, it removes
exactly that card and leaves every other card in place in order. -/
theorem deleteCard_removes_target_preserves_order
    (cards l1 l2 : List Card) (c : Card) (k : Nat) :
    List.Sublist (deleteCard cards k) cards ∧
    ((∀ x ∈ cards, x.id ≠ k) → deleteCard cards k = cards) ∧
    (cards = l1 ++ c :: l2 → c.id = k → (∀ x ∈ l1, x.id ≠ k) →
      (∀ x ∈ l2, x.id ≠ k) → deleteCard cards k = l1 ++ l2) := by
  refine ⟨List.filter_sublist _, ?_, ?_⟩
  · intro hall
    apply List.filter_eq_self.mpr
    intro x hx
    simpa using hall x hx
  · intro hcards hc h1 h2
    subst hcards
    have e1 : l1.filter (fun card => card.id != k) = l1 := by
      apply List.filter_eq_self.mpr
      intro x hx
      simpa using h1 x hx
    have e2 : l2.filter (fun card => card.id != k) = l2 := by
      apply List.filter_eq_self.mpr
      intro x hx
      simpa using h2 x hx
    simp [deleteCard, List.filter_append, e1, e2, List.filter_cons, hc]

/-- Cards used to exercise `deleteCard` at concrete inputs. -/
def wCardA : Card := { id := 1, title := "a", details := "d", nfcData := none }

/-- Second concrete card for `deleteCard` witnesses. -/
def wCardB : Card := { id := 2, title := "b", details := "d", nfcData := none }

/-- Third concrete card for `deleteCard` witnesses. -/
def wCardC : Card := { id := 3, title := "c", details := "d", nfcData := none }

/-- Witness for C5: deleting identifier 2 from `[wCardA, wCardB, wCardC]`
removes exactly `wCardB` and keeps the others in order. -/
theorem deleteCard_removes_target_preserves_order_witness :
    deleteCard [wCardA, wCardB, wCardC] 2 = [wCardA, wCardC] :=
  (deleteCard_removes_target_preserves_order [wCardA, wCardB, wCardC]
      [wCardA] [wCardC] wCardB 2).2.2 rfl rfl
    (by decide) (by decide)

/-- C6: when the capability check reported NFC as unsupported, the scan
trigger surfaces exactly one user-facing error notice, leaves the whole state
unchanged (so the scan-confirmation surface is not opened) and does not
mutate the card collection. -/
theorem openScanModal_unsupported_alerts_and_no_open
    (s : AppState) (h : s.isNfcSupported = false) :
    (openScanModal s).1 = s ∧
    (openScanModal s).1.scanModalVisible = s.scanModalVisible ∧
    (openScanModal s).1.cards = s.cards ∧
    alertCount (openScanModal s).2 = 1 := by
  simp [openScanModal, h, alertCount, List.countP_cons, isAlert]

/-- State after the capability check fails: seeded cards, NFC unsupported,
scan modal closed. -/
def unsupportedState : AppState :=
  { cards := seededCards, isNfcSupported := false, scanModalVisible := false }

/-- Witness for C6: invoking the scan trigger on the unsupported state
changes nothing and raises one alert. -/
theorem openScanModal_unsupported_alerts_and_no_open_witness :
    (openScanModal unsupportedState).1 = unsupportedState ∧
    (openScanModal unsupportedState).1.scanModalVisible =
      unsupportedState.scanModalVisible ∧
    (openScanModal unsupportedState).1.cards = unsupportedState.cards ∧
    alertCount (openScanModal unsupportedState).2 = 1 :=
  openScanModal_unsupported_alerts_and_no_open unsupportedState rfl

/-- C7: a successful scan of a tag whose record list is empty (and likewise
of a tag with no record list at all) appends exactly one card whose
`nfcData` field is the literal string `"No readable data"`. -/
theorem scanNfc_empty_records_placeholder
    (decode : List Nat → Option String) (s : AppState) :
    (∃ c : Card,
      (scanNfc decode (ScanEnv.tagRead { ndefMessage := some [] })
          s).1.cards = s.cards ++ [c] ∧
      c.nfcData = some "No readable data") ∧
    (∃ c : Card,
      (scanNfc decode (ScanEnv.tagRead { ndefMessage := none })
          s).1.cards = s.cards ++ [c] ∧
      c.nfcData = some "No readable data") := by
  exact ⟨⟨newNfcCard s.cards "No readable data", rfl, rfl⟩,
    ⟨newNfcCard s.cards "No readable data", rfl, rfl⟩⟩

/-- Mock decoder that decodes any payload to the fixed text `t`. -/
def decTo (t : String) : List Nat → Option String := fun _ => some t

/-- Session outcome: a tag carrying exactly one data record. -/
def oneRecordTag : ScanEnv :=
  ScanEnv.tagRead { ndefMessage := some [{ payload := [0] }] }

/-- Session outcome for the C8 scenario: one record whose payload bytes
spell `hello`. -/
def helloTagEnv : ScanEnv :=
  ScanEnv.tagRead { ndefMessage := some [{ payload := [104, 101, 108, 108, 111] }] }

/-- The card produced by the C8 scenario scan. -/
def helloCard : Card :=
  { id := 2, title := "New NFC Card", details := "Card scanned successfully",
    nfcData := some "hello" }

/-- C8: starting from the seeded one-card state (id 1), a scan whose tag has
one record decoding to `"hello"` yields the two-card collection
`[seedCard, {id := 2, nfcData := "hello"}]`, and deleting id 1 then leaves
exactly the id-2 card. -/
theorem scan_then_delete_scenario :
    (scanNfc (decTo "hello") helloTagEnv scanState0).1.cards =
      [seedCard, helloCard] ∧
    deleteCard ((scanNfc (decTo "hello") helloTagEnv scanState0).1.cards) 1 =
      [helloCard] := by
  exact ⟨rfl, rfl⟩

/-- State after scanning a tag decoding to `"a"` from the initial state. -/
def c9State1 : AppState := (scanNfc (decTo "a") oneRecordTag scanState0).1

/-- State after a second scan, decoding to `"b"`. -/
def c9State2 : AppState := (scanNfc (decTo "b") oneRecordTag c9State1).1

/-- State after deleting the card with identifier 2. -/
def c9State3 : AppState :=
  { c9State2 with cards := deleteCard c9State2.cards 2 }

/-- State after a third scan, decoding to `"c"`. -/
def c9State4 : AppState := (scanNfc (decTo "c") oneRecordTag c9State3).1

/-- First of the two distinct cards sharing identifier 3. -/
def dupCardB : Card :=
  { id := 3, title := "New NFC Card", details := "Card scanned successfully",
    nfcData := some "b" }

/-- Second of the two distinct cards sharing identifier 3. -/
def dupCardC : Card :=
  { id := 3, title := "New NFC Card", details := "Card scanned successfully",
    nfcData := some "c" }

/-- C9: identifier uniqueness is not preserved: from the seeded one-card
state, the sequence scan(`"a"`), scan(`"b"`), delete id 2, scan(`"c"`) — all
scans successful — reaches a collection holding two distinct cards that both
have identifier 3. -/
theorem duplicate_ids_reachable :
    c9State4.cards = [seedCard, dupCardB, dupCardC] ∧
    dupCardB ≠ dupCardC ∧
    dupCardB.id = dupCardC.id := by
  exact ⟨rfl, by decide, rfl⟩

/-- C10: a single `deleteCard` request for identifier `k` removes every card
whose identifier equals `k` — after the call no `k`-card remains, every card
with a different identifier is kept (with multiplicity) — and on a concrete
collection of two distinct cards both carrying identifier 3, one request
removes both. -/
theorem deleteCard_removes_all_matching (cards : List Card) (k : Nat) :
    (deleteCard cards k).countP (fun c => c.id == k) = 0 ∧
    (deleteCard cards k).countP (fun c => c.id != k) =
      cards.countP (fun c => c.id != k) ∧
    deleteCard [dupCardB, dupCardC] 3 = [] := by
  refine ⟨?_, ?_, rfl⟩
  · apply List.countP_eq_zero.mpr
    intro a ha
    have := List.of_mem_filter ha
    simpa using this
  · induction cards with
    | nil => rfl
    | cons x xs ih =>
      by_cases hx : x.id = k
      · simp [deleteCard, List.filter_cons, hx, List.countP_cons] at ih ⊢
        exact ih
      · simp [deleteCard, List.filter_cons, hx, List.countP_cons] at ih ⊢
        exact ih
